import Mathlib

/-!
Verification of the ninja reverse-proxy gateway against its specification.

The definitions below are a shallow embedding of three source files:

- examples/opengpt.rs — the streaming-converter loop of main (lines 41-54);
- openai/src/serve/mod.rs — Serve::run, get_session, post_access_token and
  the TryInto Response instance for SessionAccessToken;
- openai/src/serve/route/ui/mod.rs — post_login_token, get_logout,
  get_session and create_response_from_session.

Upstream network exchanges (login, session exchange, token refresh, revoke)
are modelled by passing their outcome as an explicit argument; handlers
additionally return a trace of which upstream calls they performed, so that
claims about calls being made or skipped are statable.
-/

/-! ## Streaming response converter (examples/opengpt.rs, main, lines 41-54)

The Rust loop keeps previous_response across events and for each event with
text message runs:

  if message.starts_with(previous_response)
    emit message.chars().skip(previous_response.len()).collect()
  else
    emit message
  previous_response = message

Note that previous_response.len() in Rust is the UTF-8 BYTE length of the
string, while chars().skip(n) skips n CHARACTERS.  Both are modelled
faithfully: String.isPrefixOf is character-prefix, which for valid UTF-8
coincides with the byte-prefix test of str::starts_with, and the skip count
is the UTF-8 byte size of the previous snapshot. -/

/-- The UTF-8 byte length of a string given as its character list; this is
what str::len returns in Rust. -/
def utf8_len (l : List Char) : Nat := (l.map Char.utf8Size).sum

/-- One step of the converter loop body from examples/opengpt.rs lines 46-51:
the chunk written for snapshot message when the previous snapshot was
previous.  For valid UTF-8 the byte-prefix test of str::starts_with is the
character-prefix test. -/
def emit_chunk (previous message : String) : String :=
  if previous.toList.isPrefixOf message.toList then
    String.mk (message.toList.drop (utf8_len previous.toList))
  else
    message

/-- The whole converter loop from examples/opengpt.rs lines 41-54: the list of
chunks written for a sequence of snapshots, starting from a given previous
snapshot (the loop starts with the empty string). -/
def convert_stream (previous : String) : List String → List String
  | [] => []
  | message :: rest => emit_chunk previous message :: convert_stream message rest

/-- Written from the SPEC words, not from the source, for comparison with
emit_chunk: section 4.5 says that when the new snapshot starts with the
previous one the emitted chunk is the suffix new[len(previous):], that is,
the new snapshot with the previous snapshot removed from its front. -/
def spec_emit_chunk (previous message : String) : String :=
  if previous.toList.isPrefixOf message.toList then
    String.mk (message.toList.drop previous.length)
  else
    message

/-- C1: the claim fails on the code for non-ASCII snapshots.  For the
snapshots "é" then "éab" the new snapshot starts with the previous one, and
the claimed chunk is the suffix "ab" (as spec_emit_chunk computes); the code
instead skips as many characters as the previous snapshot has UTF-8 bytes
(two for "é") and emits only "b", silently dropping the character "a".  The
two ASCII examples quoted by the claim do hold. -/
theorem convert_stream_drops_chars_on_multibyte :
    convert_stream "" ["é", "éab"] = ["é", "b"] ∧
    spec_emit_chunk "é" "éab" = "ab" ∧
    ("b" : String) ≠ "ab" ∧
    convert_stream "" ["Hello", "Hello world"] = ["Hello", " world"] ∧
    " world" = emit_chunk "Hello" "Hello world" ∧
    convert_stream "" ["Hello", "Hi"] = ["Hello", "Hi"] := by
  refine ⟨by decide, by decide, by decide, by decide, by decide, by decide⟩

/-! ## Common data model

String constants from openai/src/serve/mod.rs and
openai/src/serve/route/ui/mod.rs. -/

deriving instance DecidableEq for Except

/-- EMPTY constant from serve/mod.rs line 46. -/
def EMPTY : String := ""

/-- DEFAULT_INDEX constant from ui/mod.rs line 59. -/
def DEFAULT_INDEX : String := "/"

/-- LOGIN_INDEX constant from ui/mod.rs line 60. -/
def LOGIN_INDEX : String := "/auth/login"

/-- SESSION_ID cookie name from ui/mod.rs line 61. -/
def SESSION_ID : String := "ninja_session"

/-- PUID_ID cookie name from ui/mod.rs line 62. -/
def PUID_ID : String := "_puid"

/-- Modelled from the spec: the session cookie name exported by the auth
module (crate::auth::API_AUTH_SESSION_COOKIE_KEY).  Its literal value is not
part of the given sources; the claims only use it as an abstract cookie name,
so any fixed string suffices. -/
def API_AUTH_SESSION_COOKIE_KEY : String := "API_AUTH_SESSION_COOKIE"

/-- The client-facing Session record, described in spec section 3 and built
field by field in ui/mod.rs lines 259-266.  expires is a unix timestamp in
seconds. -/
structure Session where
  access_token : String
  user_id : String
  email : String
  expires : Int
  refresh_token : Option String
  auth_session : Option String
deriving DecidableEq

/-- SameSite attribute of the cookie crate; the handlers only ever use Lax. -/
inductive SameSite
  | Strict
  | Lax
  | NoRestriction
deriving DecidableEq

/-- The value placed in a cookie: either a plain string, or the opaque
serialization of a Session (the Display implementation of Session lives
outside the given sources, so it is carried as the Session itself). -/
inductive CookieValue
  | raw (s : String)
  | sessionPayload (s : Session)
deriving DecidableEq

/-- A cookie as assembled by cookie::Cookie::build(..).finish(); the fields
left unset by a builder chain keep the builder defaults (none / false). -/
structure Cookie where
  name : String
  value : CookieValue
  path : Option String := none
  expires : Option Int := none
  max_age : Option Int := none
  same_site : Option SameSite := none
  secure : Bool := false
  http_only : Bool := false
deriving DecidableEq

/-- The session payload carried inside a SessionAccessToken
(auth::model::Session); serve/mod.rs lines 355-377 read exactly its value and
its optional expiry (a SystemTime, modelled as unix seconds). -/
structure SessionData where
  value : String
  expires : Option Int
deriving DecidableEq

/-- A session-variant access token; serve/mod.rs only touches its optional
session payload and re-serializes the whole token into the response body, so
only that payload is modelled. -/
structure SessionAccessToken where
  session : Option SessionData
deriving DecidableEq

/-- The OAuth payload of an access token; it is only re-serialized, never
inspected, by the handlers in the given sources. -/
structure OAuthData where
  access_token : String
  expires_in : Int
deriving DecidableEq

/-- auth::model::AccessToken as matched in serve/mod.rs lines 285-291. -/
inductive AccessToken
  | OAuth (c : OAuthData)
  | Session (t : SessionAccessToken)
deriving DecidableEq

/-- What a response body serializes; JSON serialization itself is modelled by
carrying the serialized data. -/
inductive Body
  | empty
  | accessTokenJson (t : AccessToken)
  | sessionTokenJson (t : SessionAccessToken)
  | uiSessionJson (s : Session)
deriving DecidableEq

/-- An HTTP response as assembled by the handlers: status code, the LOCATION
header, SET_COOKIE headers built from cookies, the raw serialized-session
SET_COOKIE header that ui create_response_from_session sets (line 369), the
CONTENT_TYPE header and the body. -/
structure Response where
  status : Nat
  location : Option String := none
  set_cookies : List Cookie := []
  set_cookie_session : Option Session := none
  content_type : Option String := none
  body : Body := .empty
deriving DecidableEq

/-- serve::error::ResponseError, with the constructors the given sources use
(the enum itself is defined in serve/error.rs, outside the given sources;
constructor names follow the source call sites, including the
TempporaryRedirect spelling).  Anyhow stands for the conversion applied to a
plain anyhow error at a question-mark operator, whose concrete kind is chosen
in serve/error.rs. -/
inductive ResponseError
  | Unauthorized (msg : String)
  | BadRequest (msg : String)
  | InternalServerError (msg : String)
  | TempporaryRedirect (location : String)
  | Anyhow (msg : String)
deriving DecidableEq

/-! ## Handlers of openai/src/serve/mod.rs

Each upstream exchange result is passed in as an argument of Except type
(Ok/Err of the Rust call).  Handlers that may or may not perform an upstream
call also return a Bool recording whether the call was made. -/

namespace serve

/-- The cookie built by the TryInto Response implementation for
SessionAccessToken, serve/mod.rs lines 369-377: name
API_AUTH_SESSION_COOKIE_KEY, value the session payload value, path /,
expiry the session expiry (falling back to the current time when the payload
carries none, line 364), SameSite Lax, Secure set, HttpOnly unset. -/
def session_cookie (now : Int) (s : SessionData) : Cookie :=
  { name := API_AUTH_SESSION_COOKIE_KEY
    value := .raw s.value
    path := some "/"
    expires := some (s.expires.getD now)
    same_site := some .Lax
    secure := true
    http_only := false }

/-- TryInto Response for SessionAccessToken, serve/mod.rs lines 351-386: a
token without its session payload is an InternalServerError; otherwise a 200
response carrying the session cookie and the JSON serialization of the whole
token. -/
def session_try_into (now : Int) (t : SessionAccessToken) :
    Except ResponseError Response :=
  match t.session with
  | none => .error (.InternalServerError "Session error!")
  | some s =>
    .ok { status := 200
          set_cookies := [session_cookie now s]
          content_type := some "application/json"
          body := .sessionTokenJson t }

/-- GET /api/auth/session, serve/mod.rs lines 250-267.  cookie is the value
of the API_AUTH_SESSION_COOKIE_KEY cookie when present;
do_session_result is the outcome of the upstream do_session exchange.  The
Bool records whether that exchange was attempted. -/
def get_session (cookie : Option String) (now : Int)
    (do_session_result : Except String SessionAccessToken) :
    Except ResponseError Response × Bool :=
  match cookie with
  | some _ =>
    match do_session_result with
    | .error err => (.error (.BadRequest err), true)
    | .ok session_token => (session_try_into now session_token, true)
  | none =>
    (.error (.Unauthorized ("Session: " ++ API_AUTH_SESSION_COOKIE_KEY ++ " required!")),
     false)

/-- The body of POST /auth/token after the pre-shared-key gate,
serve/mod.rs lines 285-291: the login outcome is dispatched on the
access-token variant; a login error propagates at the question-mark
operator. -/
def handle_access_token (now : Int) (login_result : Except String AccessToken) :
    Except ResponseError Response × Bool :=
  match login_result with
  | .error err => (.error (.Anyhow err), true)
  | .ok (.Session session_token) => (session_try_into now session_token, true)
  | .ok (.OAuth c) =>
    (.ok { status := 200
           content_type := some "application/json"
           body := .accessTokenJson (.OAuth c) },
     true)

/-- POST /auth/token, serve/mod.rs lines 270-292.  auth_key is the configured
pre-shared key, bearer the presented bearer token, login_result the outcome
of the upstream try_login exchange.  The Bool records whether try_login was
attempted. -/
def post_access_token (auth_key : Option String) (bearer : Option String)
    (now : Int) (login_result : Except String AccessToken) :
    Except ResponseError Response × Bool :=
  match auth_key with
  | some key =>
    match bearer with
    | none => (.error (.Unauthorized "Login Authentication Key required!"), false)
    | some b =>
      if b ≠ key then
        (.error (.Unauthorized "Authentication Key error!"), false)
      else
        handle_access_token now login_result
  | none => handle_access_token now login_result

end serve

/-! ## Token-bucket strategy parsing and server startup (Serve::run) -/

namespace tokenbucket

/-- Modelled from the spec: the two interchangeable token-bucket strategies
of section 4.2, local (in-process map) and shared (external counter store).
The Strategy enum itself lives in serve/middleware/tokenbucket.rs, outside
the given sources. -/
inductive Strategy
  | Local
  | Shared
deriving DecidableEq

/-- Modelled from the spec: Strategy FromStr, defined in
serve/middleware/tokenbucket.rs outside the given sources.  Section 4.2 says
construction recognizes the strategy name and an invalid strategy name fails
fast at startup, so exactly the two strategy names parse and anything else is
an error. -/
def Strategy.from_str (s : String) : Except String Strategy :=
  if s = "local" then .ok .Local
  else if s = "shared" then .ok .Shared
  else .error ("Unknown strategy: " ++ s)

/-- The token-bucket configuration fields of ContextArgs consumed by
Serve::run at serve/mod.rs lines 129-136. -/
structure ContextArgs where
  tb_store_strategy : String
  tb_enable : Bool
  tb_capacity : Nat
  tb_fill_rate : Nat
  tb_expired : Nat
  tb_redis_url : String
deriving DecidableEq

/-- TokenBucketLimitContext as constructed by the From tuple conversion at
serve/mod.rs lines 129-136. -/
structure TokenBucketLimitContext where
  strategy : Strategy
  tb_enable : Bool
  tb_capacity : Nat
  tb_fill_rate : Nat
  tb_expired : Nat
  tb_redis_url : String
deriving DecidableEq

/-- The two observable outcomes of the startup phase of Serve::run: an error
returned before the listener is bound, or a bound server carrying the
constructed limit context. -/
inductive RunOutcome
  | startup_error (e : String)
  | server_bound (limit : TokenBucketLimitContext)
deriving DecidableEq

/-- Serve::run up to the point the listener is bound, serve/mod.rs lines
88-233: the question-mark operator on Strategy::from_str at line 130 returns
the error from run before the bind calls at lines 218/226; on success the
limit context is built from the configuration and the server is bound.  What
the bound server then serves is outside this embedding. -/
def run (args : ContextArgs) : RunOutcome :=
  match Strategy.from_str args.tb_store_strategy with
  | .error e => .startup_error e
  | .ok strategy =>
    .server_bound
      { strategy := strategy
        tb_enable := args.tb_enable
        tb_capacity := args.tb_capacity
        tb_fill_rate := args.tb_fill_rate
        tb_expired := args.tb_expired
        tb_redis_url := args.tb_redis_url }

end tokenbucket

/-! ## Handlers of openai/src/serve/route/ui/mod.rs -/

namespace ui

/-- Outcome of one upstream credential exchange as used by ui get_session:
success carries the Session obtained from the exchanged token via
AuthenticateToken try_from and Session from (both defined outside the given
sources); exchangeError is an Err of the upstream call itself (caught at
lines 336-338 and 347-349); convertError is a failure of the
AuthenticateToken conversion after a successful exchange, which propagates
out of the handler at the question-mark operators on lines 333 and 344. -/
inductive ExchangeResult
  | success (s : Session)
  | exchangeError (e : String)
  | convertError (e : String)
deriving DecidableEq

/-- One upstream credential-renewal call made by ui get_session: either the
session-token exchange do_session or the refresh-token exchange
do_refresh_token. -/
inductive RefreshCall
  | do_session (cookie_value : String)
  | do_refresh_token (refresh_token : String)
deriving DecidableEq

/-- create_response_from_session, ui/mod.rs lines 364-373: a 200 response
with a LOCATION header pointing at the login page, a SET_COOKIE header
holding the serialized session, a JSON content type and the session-props
body built by session_to_body.  The RFC 3339 date formatting inside
session_to_body is treated as plain serialization of the session. -/
def create_response_from_session (session : Session) : Except ResponseError Response :=
  .ok { status := 200
        location := some LOGIN_INDEX
        set_cookie_session := some session
        content_type := some "application/json"
        body := .uiSessionJson session }

/-- GET /auth/session, ui/mod.rs lines 319-362.  session is the Session
presented by the client, session_token the optional upstream session cookie
the extractor found, now the current unix timestamp; session_result and
refresh_result are the outcomes the two possible upstream exchanges would
have.  Returns the handler result together with the list of upstream
renewal calls performed. -/
def get_session (session : Session) (session_token : Option String) (now : Int)
    (session_result refresh_result : ExchangeResult) :
    Except ResponseError Response × List RefreshCall :=
  if session.expires < now then
    (.error (.TempporaryRedirect LOGIN_INDEX), [])
  else if session.expires - now ≤ 21600 then
    match session_token with
    | some c =>
      match session_result with
      | .success new_session => (create_response_from_session new_session, [.do_session c])
      | .exchangeError _ => (create_response_from_session session, [.do_session c])
      | .convertError e => (.error (.Anyhow e), [.do_session c])
    | none =>
      match session.refresh_token with
      | some refresh_token =>
        match refresh_result with
        | .success new_session =>
          (create_response_from_session new_session, [.do_refresh_token refresh_token])
        | .exchangeError _ =>
          (create_response_from_session session, [.do_refresh_token refresh_token])
        | .convertError e => (.error (.Anyhow e), [.do_refresh_token refresh_token])
      | none => (create_response_from_session session, [])
  else
    (create_response_from_session session, [])

/-- The clearing cookies built by get_logout, ui/mod.rs lines 292-307: empty
value, path /, SameSite Lax, max-age zero. -/
def clear_cookie (name : String) : Cookie :=
  { name := name
    value := .raw EMPTY
    path := some DEFAULT_INDEX
    max_age := some 0
    same_site := some .Lax
    secure := false
    http_only := false }

/-- GET /auth/logout, ui/mod.rs lines 284-317.  When the session holds a
refresh token the upstream do_revoke_token call is made and its result bound
to an unused variable (line 288), so the revoke outcome never influences the
response.  The response clears the session and puid cookies and redirects
(302 FOUND) to the login page.  The Bool records whether the revoke call was
made. -/
def get_logout (refresh_token : Option String) (_revoke_result : Except String Unit) :
    Response × Bool :=
  ({ status := 302
     location := some LOGIN_INDEX
     set_cookies := [clear_cookie SESSION_ID, clear_cookie PUID_ID]
     body := .empty },
   refresh_token.isSome)

/-- Outcome of crate::token::check at ui/mod.rs line 253, which returns a
Result of an Option of Profile: a profile with user id, email and expiry; an
Ok without a profile; or an Err. -/
inductive CheckResult
  | ok_profile (user_id email : String) (expires : Int)
  | ok_none
  | check_err (e : String)
deriving DecidableEq

/-- The session cookie built by post_login_token, ui/mod.rs lines 268-274:
name SESSION_ID, value the serialized session, path /, expiry the session
expiry, SameSite Lax, not Secure, not HttpOnly. -/
def session_id_cookie (session : Session) : Cookie :=
  { name := SESSION_ID
    value := .sessionPayload session
    path := some DEFAULT_INDEX
    expires := some session.expires
    same_site := some .Lax
    secure := false
    http_only := false }

/-- POST /auth/login/token, ui/mod.rs lines 244-282.  access_token is the
presented bearer token, check_result the outcome token validation would
have.  The Bool records whether crate::token::check was called. -/
def post_login_token (access_token : String) (check_result : CheckResult) :
    Except ResponseError Response × Bool :=
  if access_token = "" then
    (.error (.TempporaryRedirect LOGIN_INDEX), false)
  else
    match check_result with
    | .check_err e => (.error (.Unauthorized e), true)
    | .ok_none => (.error (.InternalServerError "Get Profile Erorr"), true)
    | .ok_profile user_id email expires =>
      let session : Session :=
        { access_token := access_token
          user_id := user_id
          email := email
          expires := expires
          refresh_token := none
          auth_session := none }
      (.ok { status := 200
             location := some DEFAULT_INDEX
             set_cookies := [session_id_cookie session]
             body := .empty },
       true)

end ui

/-! ## Theorems -/

/-- C9: a session whose expiry timestamp is strictly less than the current
timestamp makes GET /auth/session return a TempporaryRedirect to the login
page, with no refresh attempt and no session data. -/
theorem ui_get_session_expired_redirects (s : Session) (tok : Option String)
    (now : Int) (r1 r2 : ui.ExchangeResult) (h : s.expires < now) :
    ui.get_session s tok now r1 r2 =
      (.error (.TempporaryRedirect LOGIN_INDEX), []) := by
  simp [ui.get_session, h]

/-- C9 witness: a concrete session expired one second ago. -/
theorem ui_get_session_expired_redirects_witness :
    ui.get_session
        { access_token := "a", user_id := "u", email := "e", expires := 0,
          refresh_token := none, auth_session := none }
        none 1 (.exchangeError "x") (.exchangeError "y") =
      (.error (.TempporaryRedirect LOGIN_INDEX), []) :=
  ui_get_session_expired_redirects _ _ _ _ _ (by decide)

/-- C10: POST /auth/login/token with an empty bearer token returns a
TempporaryRedirect to the login page before any token validation is
attempted, whatever outcome the validation would have had. -/
theorem ui_post_login_token_empty_bearer (check_result : ui.CheckResult) :
    ui.post_login_token "" check_result =
      (.error (.TempporaryRedirect LOGIN_INDEX), false) := by
  simp [ui.post_login_token]

/-- C8: the logout response never depends on the revoke outcome, always
redirects (302) to the login page, and always clears the session and puid
cookies with empty values and max-age zero; the revoke call is made exactly
when the session holds a refresh token. -/
theorem ui_get_logout_ignores_revoke_result (rt : Option String)
    (r1 r2 : Except String Unit) :
    ui.get_logout rt r1 = ui.get_logout rt r2 ∧
    (ui.get_logout rt r1).1.status = 302 ∧
    (ui.get_logout rt r1).1.location = some LOGIN_INDEX ∧
    (ui.get_logout rt r1).1.set_cookies =
      [ui.clear_cookie SESSION_ID, ui.clear_cookie PUID_ID] ∧
    (ui.clear_cookie SESSION_ID).max_age = some 0 ∧
    (ui.clear_cookie SESSION_ID).value = .raw "" ∧
    (ui.clear_cookie PUID_ID).max_age = some 0 ∧
    (ui.clear_cookie PUID_ID).value = .raw "" ∧
    (ui.get_logout rt r1).2 = rt.isSome := by
  exact ⟨rfl, rfl, rfl, rfl, rfl, rfl, rfl, rfl, rfl⟩

/-- C2 counterexample: a session presented with neither an upstream session
cookie nor a refresh token, exactly at remaining lifetime 21600, makes zero
refresh attempts rather than the exactly one the claim states. -/
theorem ui_get_session_no_credentials_makes_no_refresh :
    (ui.get_session
        { access_token := "a", user_id := "u", email := "e", expires := 21600,
          refresh_token := none, auth_session := none }
        none 0 (.exchangeError "x") (.exchangeError "y")).2.length ≠ 1 := by
  decide

/-- C2 (amended): at remaining lifetime 21601 no refresh call is made and the
response is built from the unchanged incoming session; at remaining lifetime
21600 exactly one refresh attempt (session-token exchange or refresh-token
exchange) is made, provided the request carries an upstream session cookie
or the session holds a refresh token. -/
theorem ui_get_session_refresh_threshold (s : Session) (tok : Option String)
    (now : Int) (r1 r2 : ui.ExchangeResult) :
    (s.expires - now = 21601 →
      ui.get_session s tok now r1 r2 = (ui.create_response_from_session s, [])) ∧
    (s.expires - now = 21600 → (tok.isSome ∨ s.refresh_token.isSome) →
      ((ui.get_session s tok now r1 r2).2).length = 1) := by
  constructor
  · intro h
    have h1 : ¬ s.expires < now := by omega
    have h2 : ¬ s.expires - now ≤ 21600 := by omega
    simp [ui.get_session, h1, h2]
  · intro h hcred
    have h1 : ¬ s.expires < now := by omega
    have h2 : s.expires - now ≤ 21600 := by omega
    cases tok with
    | some c => cases r1 <;> simp [ui.get_session, h1, h2]
    | none =>
      cases hcred with
      | inl hc => simp at hc
      | inr hr =>
        cases hrt : s.refresh_token with
        | none => rw [hrt] at hr; simp at hr
        | some rt => cases r2 <;> simp [ui.get_session, h1, h2, hrt]

/-- C2 witness: a session at remaining lifetime 21601 is answered unchanged
with no refresh call, and one at 21600 holding an upstream session cookie
makes exactly one refresh attempt. -/
theorem ui_get_session_refresh_threshold_witness :
    ui.get_session
        { access_token := "a", user_id := "u", email := "e", expires := 21601,
          refresh_token := none, auth_session := none }
        none 0 (.exchangeError "x") (.exchangeError "y") =
      (ui.create_response_from_session
        { access_token := "a", user_id := "u", email := "e", expires := 21601,
          refresh_token := none, auth_session := none }, []) ∧
    ((ui.get_session
        { access_token := "a", user_id := "u", email := "e", expires := 21600,
          refresh_token := none, auth_session := none }
        (some "c") 0 (.exchangeError "x") (.exchangeError "y")).2).length = 1 :=
  ⟨(ui_get_session_refresh_threshold _ none 0 (.exchangeError "x")
      (.exchangeError "y")).1 (by decide),
   (ui_get_session_refresh_threshold _ (some "c") 0 (.exchangeError "x")
      (.exchangeError "y")).2 (by decide) (Or.inl (by decide))⟩

/-- C3: while the session is still valid and within the renewal threshold, a
failing upstream exchange (session-token or refresh-token) leaves the
handler returning the 200 response built from the unchanged old session, not
an error. -/
theorem ui_get_session_refresh_failure_keeps_old_session (s : Session)
    (tok : Option String) (now : Int) (e1 e2 : String)
    (hvalid : ¬ s.expires < now) (hnear : s.expires - now ≤ 21600) :
    (ui.get_session s tok now (.exchangeError e1) (.exchangeError e2)).1 =
      Except.ok
        { status := 200
          location := some LOGIN_INDEX
          set_cookie_session := some s
          content_type := some "application/json"
          body := .uiSessionJson s } := by
  cases tok with
  | some c => simp [ui.get_session, hvalid, hnear, ui.create_response_from_session]
  | none =>
    cases hrt : s.refresh_token <;>
      simp [ui.get_session, hvalid, hnear, hrt, ui.create_response_from_session]

/-- C3 witness: a concrete near-expiry session whose refresh-token exchange
fails is still answered with the old session. -/
theorem ui_get_session_refresh_failure_keeps_old_session_witness :
    (ui.get_session
        { access_token := "a", user_id := "u", email := "e", expires := 100,
          refresh_token := some "rt", auth_session := none }
        none 0 (.exchangeError "boom") (.exchangeError "boom")).1 =
      Except.ok
        { status := 200
          location := some LOGIN_INDEX
          set_cookie_session := some
            { access_token := "a", user_id := "u", email := "e", expires := 100,
              refresh_token := some "rt", auth_session := none }
          content_type := some "application/json"
          body := .uiSessionJson
            { access_token := "a", user_id := "u", email := "e", expires := 100,
              refresh_token := some "rt", auth_session := none } } :=
  ui_get_session_refresh_failure_keeps_old_session _ none 0 "boom" "boom"
    (by decide) (by decide)

/-- C4 counterexample: with no pre-shared key configured and a login that
succeeds with a session-variant token lacking its session payload, POST
/auth/token returns an InternalServerError, which is neither an OAuth JSON
body nor a session cookie response. -/
theorem serve_post_access_token_missing_session_payload :
    serve.post_access_token none none 0 (.ok (.Session { session := none })) =
      (.error (.InternalServerError "Session error!"), true) := by
  decide

/-- C4 (amended): with a pre-shared key configured, a missing bearer or a
bearer different from the key yields Unauthorized with the login exchange
never attempted; a matching bearer, or no configured key, hands over to the
login path, where a successful login yields the OAuth JSON body for the
OAuth variant and the session cookie response for a session variant carrying
its session payload (a session variant without the payload yields
InternalServerError, per the counterexample). -/
theorem serve_post_access_token_gate_and_variants (key b : String)
    (bearer : Option String) (now : Int) (lr : Except String AccessToken) :
    (serve.post_access_token (some key) none now lr =
      (.error (.Unauthorized "Login Authentication Key required!"), false)) ∧
    (b ≠ key →
      serve.post_access_token (some key) (some b) now lr =
        (.error (.Unauthorized "Authentication Key error!"), false)) ∧
    (serve.post_access_token (some key) (some key) now lr =
      serve.handle_access_token now lr) ∧
    (serve.post_access_token none bearer now lr =
      serve.handle_access_token now lr) ∧
    (∀ c, serve.handle_access_token now (.ok (.OAuth c)) =
      (.ok { status := 200
             content_type := some "application/json"
             body := .accessTokenJson (.OAuth c) },
       true)) ∧
    (∀ t s, t.session = some s →
      serve.handle_access_token now (.ok (.Session t)) =
        (.ok { status := 200
               set_cookies := [serve.session_cookie now s]
               content_type := some "application/json"
               body := .sessionTokenJson t },
         true)) := by
  refine ⟨rfl, ?_, by simp [serve.post_access_token], rfl, fun c => rfl, ?_⟩
  · intro hne
    simp [serve.post_access_token, hne]
  · intro t s hs
    simp [serve.handle_access_token, serve.session_try_into, hs]

/-- C4 witness: a wrong bearer against key k is rejected without a login
attempt, and a session-variant token with its payload becomes the session
cookie response. -/
theorem serve_post_access_token_gate_and_variants_witness :
    serve.post_access_token (some "k") (some "x") 0
        (.ok (.OAuth { access_token := "a", expires_in := 1 })) =
      (.error (.Unauthorized "Authentication Key error!"), false) ∧
    serve.handle_access_token 0
        (.ok (.Session { session := some { value := "v", expires := some 9 } })) =
      (.ok { status := 200
             set_cookies := [serve.session_cookie 0 { value := "v", expires := some 9 }]
             content_type := some "application/json"
             body := .sessionTokenJson { session := some { value := "v", expires := some 9 } } },
       true) :=
  ⟨(serve_post_access_token_gate_and_variants "k" "x" none 0
      (.ok (.OAuth { access_token := "a", expires_in := 1 }))).2.1 (by decide),
   (serve_post_access_token_gate_and_variants "k" "x" none 0
      (.ok (.OAuth { access_token := "a", expires_in := 1 }))).2.2.2.2.2
     { session := some { value := "v", expires := some 9 } }
     { value := "v", expires := some 9 } rfl⟩

/-- C5: the session cookie issued with a session-cookie login response has
the session cookie name, path /, SameSite Lax, the Secure attribute set,
expiry equal to the expiry timestamp carried by the token session payload,
and the opaque serialized session string as value; and the response built
from a payload-carrying token is exactly the 200 response carrying that
cookie. -/
theorem serve_session_cookie_contract (now : Int) (s : SessionData) (t : Int)
    (h : s.expires = some t) :
    (serve.session_cookie now s).name = API_AUTH_SESSION_COOKIE_KEY ∧
    (serve.session_cookie now s).path = some "/" ∧
    (serve.session_cookie now s).same_site = some .Lax ∧
    (serve.session_cookie now s).secure = true ∧
    (serve.session_cookie now s).http_only = false ∧
    (serve.session_cookie now s).expires = some t ∧
    (serve.session_cookie now s).value = .raw s.value ∧
    serve.session_try_into now { session := some s } =
      .ok { status := 200
            set_cookies := [serve.session_cookie now s]
            content_type := some "application/json"
            body := .sessionTokenJson { session := some s } } := by
  refine ⟨rfl, rfl, rfl, rfl, rfl, ?_, rfl, rfl⟩
  simp [serve.session_cookie, h]

/-- C5 witness: a concrete payload with expiry 1234. -/
theorem serve_session_cookie_contract_witness :
    (serve.session_cookie 0 { value := "v", expires := some 1234 }).expires =
      some 1234 ∧
    (serve.session_cookie 0 { value := "v", expires := some 1234 }).secure = true :=
  ⟨(serve_session_cookie_contract 0 { value := "v", expires := some 1234 } 1234
      rfl).2.2.2.2.2.1,
   (serve_session_cookie_contract 0 { value := "v", expires := some 1234 } 1234
      rfl).2.2.2.1⟩

/-- C6: a configuration whose token-bucket strategy name does not parse makes
Serve::run return the error before the listener is bound; no server with a
default strategy is started. -/
theorem tokenbucket_run_invalid_strategy_fails_fast
    (args : tokenbucket.ContextArgs) (e : String)
    (h : tokenbucket.Strategy.from_str args.tb_store_strategy = .error e) :
    tokenbucket.run args = .startup_error e ∧
    ∀ limit, tokenbucket.run args ≠ .server_bound limit := by
  constructor
  · simp [tokenbucket.run, h]
  · intro limit
    simp [tokenbucket.run, h]

/-- C6 witness: the strategy name bogus is not recognized and startup fails. -/
theorem tokenbucket_run_invalid_strategy_fails_fast_witness :
    tokenbucket.run
        { tb_store_strategy := "bogus", tb_enable := true, tb_capacity := 60,
          tb_fill_rate := 1, tb_expired := 86400, tb_redis_url := "r" } =
      .startup_error ("Unknown strategy: " ++ "bogus") :=
  (tokenbucket_run_invalid_strategy_fails_fast _ _ (by decide)).1

/-- C7 counterexample: a present session cookie whose upstream exchange
succeeds with a token lacking its session payload yields an
InternalServerError rather than the session token as a JSON body. -/
theorem serve_get_session_missing_session_payload :
    serve.get_session (some "cookie") 0 (.ok { session := none }) =
      (.error (.InternalServerError "Session error!"), true) := by
  decide

/-- C7 (amended): GET /api/auth/session with no session cookie returns
Unauthorized without attempting the exchange; with a cookie, a failed
upstream exchange returns BadRequest, and a successful exchange returns the
session token as a JSON body when the token carries its session payload (a
token without the payload yields InternalServerError, per the
counterexample). -/
theorem serve_get_session_spec (cv : String) (now : Int)
    (r : Except String SessionAccessToken) :
    (serve.get_session none now r =
      (.error (.Unauthorized ("Session: " ++ API_AUTH_SESSION_COOKIE_KEY ++
        " required!")), false)) ∧
    (∀ e, r = .error e →
      serve.get_session (some cv) now r = (.error (.BadRequest e), true)) ∧
    (∀ t s, r = .ok t → t.session = some s →
      serve.get_session (some cv) now r =
        (.ok { status := 200
               set_cookies := [serve.session_cookie now s]
               content_type := some "application/json"
               body := .sessionTokenJson t },
         true)) := by
  refine ⟨rfl, ?_, ?_⟩
  · intro e he
    simp [serve.get_session, he]
  · intro t s hr hs
    simp [serve.get_session, hr, serve.session_try_into, hs]

/-- C7 witness: a failed exchange is a BadRequest, and a successful exchange
with the payload present is the token JSON response. -/
theorem serve_get_session_spec_witness :
    serve.get_session (some "c") 0 (.error "denied") =
      (.error (.BadRequest "denied"), true) ∧
    serve.get_session (some "c") 0
        (.ok { session := some { value := "v", expires := none } }) =
      (.ok { status := 200
             set_cookies := [serve.session_cookie 0 { value := "v", expires := none }]
             content_type := some "application/json"
             body := .sessionTokenJson { session := some { value := "v", expires := none } } },
       true) :=
  ⟨(serve_get_session_spec "c" 0 (.error "denied")).2.1 "denied" rfl,
   (serve_get_session_spec "c" 0
      (.ok { session := some { value := "v", expires := none } })).2.2
     { session := some { value := "v", expires := none } }
     { value := "v", expires := none } rfl rfl⟩
